import Mathlib

/-!
Verification of the license-plate detection pipeline in `plate_detection.py`
(class `LicensePlateDetector`).

Python strings are modelled as lists of Unicode codepoints (`List Nat`).
The character-class primitives (`str.isalnum`, `str.upper`, `str.strip`)
are modelled faithfully over the ASCII and Latin-1 ranges of Unicode
(plus the two codepoints U+0178 and U+039C that are Latin-1 uppercase
images); codepoints above that range are treated as case-invariant and
non-alphanumeric.  This range covers every character class the pipeline
distinguishes and in particular witnesses that Python's `str.isalnum`
accepts non-ASCII alphanumerics.

The OpenCV / EasyOCR stages (`cv2.findContours`, `cv2.contourArea`,
`cv2.arcLength`, `cv2.approxPolyDP`, `cv2.drawContours`, `reader.readtext`)
are external library capabilities; a `Frame` packages their outputs for one
image as abstract data (contour list with area, perimeter and
approximation-vertex-count, filled-mask pixels, OCR results), and the
repository's own logic over those outputs is translated directly.
-/

namespace PlateDetection

/-! ## Python string primitives -/

/-- Codepoints of a string literal, for writing concrete Python strings. -/
def pyStr (s : String) : List Nat := s.data.map Char.toNat

/-- Python `str.isspace` for one codepoint, over the modelled ASCII/Latin-1
range: tab through carriage return, the C0 separators FS/GS/RS/US, space,
NEL (U+0085) and no-break space (U+00A0). -/
def pyIsSpace (c : Nat) : Bool :=
  decide (c = 0x09 ∨ c = 0x0A ∨ c = 0x0B ∨ c = 0x0C ∨ c = 0x0D ∨
    c = 0x1C ∨ c = 0x1D ∨ c = 0x1E ∨ c = 0x1F ∨ c = 0x20 ∨ c = 0x85 ∨ c = 0xA0)

/-- Python `str.isalnum` for one codepoint, over the modelled ASCII/Latin-1
range: ASCII digits and letters; the Latin-1 letters ª µ º and À–ÿ minus
× ÷; the Latin-1 numerics ² ³ ¹ ¼ ½ ¾; and the two Latin-1 uppercase
images Ÿ (U+0178) and Μ (U+039C). -/
def pyCharIsAlnum (c : Nat) : Bool :=
  decide ((0x30 ≤ c ∧ c ≤ 0x39) ∨ (0x41 ≤ c ∧ c ≤ 0x5A) ∨ (0x61 ≤ c ∧ c ≤ 0x7A) ∨
    c = 0xAA ∨ c = 0xB2 ∨ c = 0xB3 ∨ c = 0xB5 ∨ c = 0xB9 ∨ c = 0xBA ∨
    c = 0xBC ∨ c = 0xBD ∨ c = 0xBE ∨
    (0xC0 ≤ c ∧ c ≤ 0xFF ∧ c ≠ 0xD7 ∧ c ≠ 0xF7) ∨ c = 0x178 ∨ c = 0x39C)

/-- Python `str.upper` for one codepoint (full case mapping, so ß expands to
SS), over the modelled ASCII/Latin-1 range: a–z and à–þ (minus ÷) shift
down by 0x20, µ maps to Greek Μ, ß to SS, ÿ to Ÿ; everything else is
unchanged. -/
def pyUpperChar (c : Nat) : List Nat :=
  if 0x61 ≤ c ∧ c ≤ 0x7A then [c - 0x20]
  else if c = 0xB5 then [0x39C]
  else if c = 0xDF then [0x53, 0x53]
  else if c = 0xFF then [0x178]
  else if 0xE0 ≤ c ∧ c ≤ 0xFE ∧ c ≠ 0xF7 then [c - 0x20]
  else [c]

/-- Python `str.upper` on a whole string. -/
def pyUpper (s : List Nat) : List Nat := (s.map pyUpperChar).flatten

/-- Python `str.strip()`: drop whitespace from both ends. -/
def pyStrip (s : List Nat) : List Nat :=
  ((s.dropWhile pyIsSpace).reverse.dropWhile pyIsSpace).reverse

/-- Python `''.join(filter(str.isalnum, s))`. -/
def keepAlnum (s : List Nat) : List Nat := s.filter pyCharIsAlnum

/-- Normalization of recognized plate text
(`result[0][-2].strip().upper()` then `''.join(filter(str.isalnum, ...))`,
`detect_plate_from_frame`, lines 102–103). -/
def normalizeDetected (s : List Nat) : List Nat := keepAlnum (pyUpper (pyStrip s))

/-- Normalization of a registry entry's plate field
(`vehicle.get('licensePlateNumber', '').upper()` then
`''.join(filter(str.isalnum, ...))`, `check_plate_with_server`,
lines 128–129). -/
def cleanRegistryPlate (s : List Nat) : List Nat := keepAlnum (pyUpper s)

/-- Codepoints of the decimal representation of a number, for the
`f"Server error: {response.status_code}"` message. -/
def natCodes (n : Nat) : List Nat := pyStr (toString n)

/-- Does the second list start with the first one? -/
def beginsWith : List Nat → List Nat → Bool
  | [], _ => true
  | _ :: _, [] => false
  | a :: as, b :: bs => a == b && beginsWith as bs

/-- Does the second list contain the first as a contiguous subsequence? -/
def containsSeq (pat : List Nat) : List Nat → Bool
  | [] => beginsWith pat []
  | b :: bs => beginsWith pat (b :: bs) || containsSeq pat bs

/-- Uppercase ASCII alphanumeric codepoints (digits 0–9 and letters A–Z),
the character set the specification asserts for normalized plate codes. -/
def isAsciiUpperAlnum (c : Nat) : Bool :=
  decide ((0x30 ≤ c ∧ c ≤ 0x39) ∨ (0x41 ≤ c ∧ c ≤ 0x5A))

/-! ## Registry lookup (`check_plate_with_server`, lines 116–143) -/

/-- One entry of the `GET /api/registrations` JSON array.  The interface
contract guarantees at least these five string fields. -/
structure Vehicle where
  licensePlateNumber : List Nat
  status : List Nat
  fullName : List Nat
  make : List Nat
  model : List Nat
  deriving DecidableEq

/-- Outcome of the `requests.get(f"{server_url}/api/registrations")` call:
either a completed HTTP response (status code plus the registration list its
JSON body parses to — the code only reads the body when the status is 200),
or a raised `requests.exceptions.RequestException` carrying a message. -/
inductive ServerResponse where
  | http (status : Nat) (registrations : List Vehicle)
  | connectionError (detail : List Nat)
  deriving DecidableEq

/-- The dictionary `check_plate_with_server` returns: either
`{"approved": True, "vehicle": vehicle}` or
`{"approved": False, "error": reason}`. -/
inductive PlateInfo where
  | approvedVehicle (vehicle : Vehicle)
  | denied (error : List Nat)
  deriving DecidableEq

/-- The loop condition of lines 131–132: the entry's cleaned plate equals the
detected code and its status is exactly `"approved"`. -/
def entryMatches (code : List Nat) (v : Vehicle) : Bool :=
  cleanRegistryPlate v.licensePlateNumber == code && v.status == pyStr "approved"

/-- The `for vehicle in registrations` loop of lines 127–136: first entry
satisfying `entryMatches` wins. -/
def findApprovedEntry (code : List Nat) : List Vehicle → Option Vehicle
  | [] => none
  | v :: vs => if entryMatches code v then some v else findApprovedEntry code vs

/-- `check_plate_with_server` (lines 116–143). -/
def check_plate_with_server (code : List Nat) (resp : ServerResponse) : PlateInfo :=
  match resp with
  | .http status regs =>
    if status = 200 then
      match findApprovedEntry code regs with
      | some v => .approvedVehicle v
      | none => .denied (pyStr "Vehicle not found or not approved")
    else
      .denied (pyStr "Server error: " ++ natCodes status)
  | .connectionError detail =>
    .denied (pyStr "Connection error: " ++ detail)

/-! ## Plate localization (`detect_plate_from_frame`, lines 65–114) -/

/-- One contour of the Canny edge map, as the OpenCV calls of lines 75–82
see it: its enclosed area (`cv2.contourArea`), its closed perimeter
(`cv2.arcLength(contour, True)`), and, for each approximation tolerance, the
vertex count of `cv2.approxPolyDP(contour, tolerance, True)`. -/
structure Contour where
  contourArea : ℚ
  arcLength : ℚ
  approxPolyDP : ℚ → Nat

/-- The acceptance test of lines 81–83: the polygon approximating the
contour at tolerance `0.02 * peri` (2% of perimeter) has exactly 4
vertices. -/
def isQuad (c : Contour) : Bool :=
  c.approxPolyDP (2 / 100 * c.arcLength) == 4

/-- Stable insertion into a list sorted by descending area: the new element
goes in front of the first element whose area is not larger, so an element
never jumps ahead of an equal-area element that preceded it. -/
def insertByAreaDesc (c : Contour) : List Contour → List Contour
  | [] => [c]
  | d :: ds =>
    if d.contourArea ≤ c.contourArea then c :: d :: ds
    else d :: insertByAreaDesc c ds

/-- `sorted(contours, key=cv2.contourArea, reverse=True)` (line 77):
stable sort by descending contour area. -/
def sortByAreaDesc : List Contour → List Contour
  | [] => []
  | c :: cs => insertByAreaDesc c (sortByAreaDesc cs)

/-- The candidate list of line 77: the first ten contours after the
descending-area sort. -/
def candidateContours (cs : List Contour) : List Contour :=
  (sortByAreaDesc cs).take 10

/-- The selection loop of lines 79–85: first candidate whose approximated
polygon has exactly 4 vertices. -/
def findLocation (cs : List Contour) : Option Contour :=
  (candidateContours cs).find? isQuad

/-- One captured frame, packaged with the outputs of the external imaging
libraries on it: `contours` is `grab_contours` of the Canny edge map of the
filtered grayscale image (lines 71–76); `fillPixels loc` lists the
coordinates where the mask drawn by `cv2.drawContours(mask, [loc], 0, 255, -1)`
equals 255 (lines 90–94); `readtext loc` is the EasyOCR result list
(text, confidence) on the grayscale crop determined by the bounding box of
those mask pixels (lines 95–99). -/
structure Frame where
  contours : List Contour
  fillPixels : Contour → List (Nat × Nat)
  readtext : Contour → List (List Nat × ℚ)

/-- The pair `detect_plate_from_frame` returns: either normalized plate text
with its confidence, or `None` with a message. -/
inductive DetectOutcome where
  | found (plate : List Nat) (confidence : ℚ)
  | noPlate (message : List Nat)
  deriving DecidableEq

/-- Message of the `ValueError` numpy raises when `np.min` is applied to the
empty index array of an all-zero mask (line 95); it is caught by the
`except Exception` handler of line 113. -/
def zeroSizeReductionMessage : List Nat :=
  pyStr "zero-size array to reduction operation minimum which has no identity"

/-- `detect_plate_from_frame` (lines 65–114).  A degenerate accepted
quadrilateral whose filled mask has no foreground pixels makes `np.min`
raise, which the surrounding handler converts into the
`"Error processing frame: ..."` no-detection outcome. -/
def detect_plate_from_frame (frame : Option Frame) : DetectOutcome :=
  match frame with
  | none => .noPlate (pyStr "No frame captured")
  | some f =>
    match findLocation f.contours with
    | none => .noPlate (pyStr "No license plate detected")
    | some location =>
      if f.fillPixels location = [] then
        .noPlate (pyStr "Error processing frame: " ++ zeroSizeReductionMessage)
      else
        match f.readtext location with
        | [] => .noPlate (pyStr "No text detected on plate")
        | (text, confidence) :: _ => .found (normalizeDetected text) confidence

/-! ## Per-frame pipeline (`process_frame`, lines 170–229) -/

/-- The detector's mutable cooldown state: `last_detection_time`
(initially 0) and `detection_cooldown` (5 seconds), lines 24–25. -/
structure DetectorState where
  last_detection_time : ℚ
  detection_cooldown : ℚ
  deriving DecidableEq

/-- The detector as constructed by `__init__`. -/
def initialState : DetectorState := ⟨0, 5⟩

/-- The `vehicleInfo` payload built for an approved real-time update
(lines 204–209). -/
structure VehicleInfo where
  ownerName : List Nat
  vehicleMake : List Nat
  vehicleModel : List Nat
  fullInfo : Vehicle
  deriving DecidableEq

/-- The outward calls a frame cycle makes, in order: the
`GET /api/registrations` lookup, the `POST /api/realtime-access` update and
the `POST /api/access-logs` log entry. -/
inductive Effect where
  | registryLookup (plate : List Nat)
  | realtimeUpdate (plate : List Nat) (status : List Nat)
      (vehicleInfo : Option VehicleInfo) (confidence : ℚ)
  | logAccess (plate : List Nat) (status : List Nat) (details : List Nat)
  deriving DecidableEq

/-- Recognize a real-time-update effect. -/
def Effect.isRealtimeUpdate : Effect → Bool
  | .realtimeUpdate _ _ _ _ => true
  | _ => false

/-- Recognize an access-log effect. -/
def Effect.isLogAccess : Effect → Bool
  | .logAccess _ _ _ => true
  | _ => false

/-- Recognize a registry-lookup effect. -/
def Effect.isRegistryLookup : Effect → Bool
  | .registryLookup _ => true
  | _ => false

/-- Outcome of one of the two best-effort `requests.post` calls: a completed
response with a status code, or a raised `RequestException` with a
message. -/
inductive PostOutcome where
  | http (status : Nat)
  | connectionError (detail : List Nat)
  deriving DecidableEq

/-- Console messages the pipeline prints locally about its side calls. -/
inductive LocalLog where
  | duplicateSkipped
  | realtimeSent (plate : List Nat) (status : List Nat)
  | realtimeSendFailed (status : Nat)
  | realtimeSendError (detail : List Nat)
  | accessLogFailed (detail : List Nat)
  deriving DecidableEq

/-- `send_realtime_update` (lines 145–168): always returns, printing a
success line on 200, a failure line on any other status, and an error line
when the request raises. -/
def send_realtime_update (plate status : List Nat) (post : PostOutcome) : List LocalLog :=
  match post with
  | .http code =>
    if code = 200 then [.realtimeSent plate status] else [.realtimeSendFailed code]
  | .connectionError detail => [.realtimeSendError detail]

/-- `log_access_attempt` (lines 231–250): returns whether the log POST got a
200, printing a failure line (and returning `false`) when it raises. -/
def log_access_attempt (post : PostOutcome) : Bool × List LocalLog :=
  match post with
  | .http code => (code == 200, [])
  | .connectionError detail => (false, [.accessLogFailed detail])

/-- Everything one `process_frame` call produces: the updated detector
state, the returned `(plate_text, info)` pair, the outward calls it made,
and the local console lines about those calls. -/
structure FrameStep where
  state : DetectorState
  plate_text : Option (List Nat)
  info : PlateInfo
  effects : List Effect
  localLog : List LocalLog
  deriving DecidableEq

/-- `process_frame` (lines 170–229).  `registryResp` is what the
registrations GET of this cycle would yield, `realtimePost` and
`accessLogPost` what the two best-effort POSTs would yield; a branch that
never performs a call simply ignores the corresponding outcome. -/
def process_frame (st : DetectorState) (now : ℚ) (frame : Option Frame)
    (registryResp : ServerResponse) (realtimePost accessLogPost : PostOutcome) :
    FrameStep :=
  match detect_plate_from_frame frame with
  | .noPlate message => ⟨st, none, .denied message, [], []⟩
  | .found plate confidence =>
    if now - st.last_detection_time < st.detection_cooldown then
      ⟨st, some plate, .denied (pyStr "Duplicate detection"), [], [.duplicateSkipped]⟩
    else
      let st2 : DetectorState := ⟨now, st.detection_cooldown⟩
      match check_plate_with_server plate registryResp with
      | .approvedVehicle v =>
        ⟨st2, some plate, .approvedVehicle v,
          [.registryLookup plate,
           .realtimeUpdate plate (pyStr "approved")
             (some ⟨v.fullName, v.make, v.model, v⟩) confidence,
           .logAccess plate (pyStr "approved")
             (pyStr "Approved vehicle - " ++ v.fullName ++ pyStr " (" ++
              v.make ++ pyStr " " ++ v.model ++ pyStr ")")],
          send_realtime_update plate (pyStr "approved") realtimePost ++
            (log_access_attempt accessLogPost).2⟩
      | .denied e =>
        ⟨st2, some plate, .denied e,
          [.registryLookup plate,
           .realtimeUpdate plate (pyStr "denied") none confidence,
           .logAccess plate (pyStr "denied")
             (pyStr "Vehicle not registered or not approved")],
          send_realtime_update plate (pyStr "denied") realtimePost ++
            (log_access_attempt accessLogPost).2⟩

/-! ## Concrete demonstration data -/

/-- The approved registry entry of the specification's decision example. -/
def jane : Vehicle :=
  ⟨pyStr "ABC123", pyStr "approved", pyStr "Jane Doe", pyStr "Toyota", pyStr "Corolla"⟩

/-- A pending entry with the same plate, listed ahead of `jane`. -/
def pendingTwin : Vehicle :=
  ⟨pyStr "ABC123", pyStr "pending", pyStr "John Roe", pyStr "Honda", pyStr "Civic"⟩

/-- A registry snapshot: a pending entry with the same plate first, then the
approved one. -/
def demoRegistrations : List Vehicle := [pendingTwin, jane]

/-- A contour whose 2%-of-perimeter approximation has exactly 4 vertices. -/
def quadContour : Contour := ⟨100, 40, fun _ => 4⟩

/-- A frame on which detection succeeds and OCR reads "AB C-12d" with
confidence 0.81. -/
def demoFrame : Frame :=
  ⟨[quadContour], fun _ => [(0, 0)], fun _ => [(pyStr "AB C-12d", 81 / 100)]⟩

/-- A frame none of whose contours approximates to a quadrilateral. -/
def noQuadFrame : Frame :=
  ⟨[⟨7, 12, fun _ => 5⟩, ⟨5, 10, fun _ => 6⟩], fun _ => [(0, 0)], fun _ => []⟩

/-- A frame whose accepted quadrilateral fills no mask pixels. -/
def degenerateFrame : Frame :=
  ⟨[quadContour], fun _ => [], fun _ => [(pyStr "ABC123", 9 / 10)]⟩

example : detect_plate_from_frame (some demoFrame) = .found (pyStr "ABC12D") (81 / 100) := rfl

example : check_plate_with_server (pyStr "ABC123") (.http 200 demoRegistrations) =
    .approvedVehicle jane := by decide

example : check_plate_with_server (pyStr "ABC123") (.connectionError (pyStr "refused")) =
    .denied (pyStr "Connection error: refused") := by decide

example : check_plate_with_server (pyStr "X") (.http 500 []) =
    .denied (pyStr "Server error: 500") := by decide

example : normalizeDetected (pyStr "AB-12 cd") = pyStr "AB12CD" := by decide

example : normalizeDetected (pyStr "é") = [0xC9] := by decide

example : findLocation degenerateFrame.contours = some quadContour := rfl

example : detect_plate_from_frame (some degenerateFrame) =
    .noPlate (pyStr "Error processing frame: " ++ zeroSizeReductionMessage) := rfl

example : detect_plate_from_frame (some noQuadFrame) =
    .noPlate (pyStr "No license plate detected") := rfl

example : ∀ u ∈ candidateContours noQuadFrame.contours, isQuad u = false := by decide

/-! ## Helper lemmas -/

/-- A codepoint that no uppercase rule rewrites is its own uppercase form. -/
theorem pyUpperChar_eq_self (c : Nat)
    (h : ¬ ((0x61 ≤ c ∧ c ≤ 0x7A) ∨ c = 0xB5 ∨ c = 0xDF ∨ c = 0xFF ∨
      (0xE0 ≤ c ∧ c ≤ 0xFE ∧ c ≠ 0xF7))) :
    pyUpperChar c = [c] := by
  unfold pyUpperChar
  split_ifs with h1 h2 h3 h4 h5
  · exact absurd (Or.inl h1) h
  · exact absurd (Or.inr (Or.inl h2)) h
  · exact absurd (Or.inr (Or.inr (Or.inl h3))) h
  · exact absurd (Or.inr (Or.inr (Or.inr (Or.inl h4)))) h
  · exact absurd (Or.inr (Or.inr (Or.inr (Or.inr h5)))) h
  · rfl

/-- Every codepoint produced by uppercasing is fixed by uppercasing. -/
theorem mem_pyUpperChar_canonical {c d : Nat} (h : d ∈ pyUpperChar c) :
    pyUpperChar d = [d] := by
  unfold pyUpperChar at h
  split_ifs at h with h1 h2 h3 h4 h5 <;>
    simp only [List.mem_singleton, List.mem_cons, List.not_mem_nil, or_false] at h
  · subst h; exact pyUpperChar_eq_self _ (by omega)
  · subst h; exact pyUpperChar_eq_self _ (by omega)
  · rcases h with h | h <;> (subst h; exact pyUpperChar_eq_self _ (by omega))
  · subst h; exact pyUpperChar_eq_self _ (by omega)
  · subst h; exact pyUpperChar_eq_self _ (by omega)
  · subst h; exact pyUpperChar_eq_self _ (by tauto)

/-- Alphanumeric codepoints are not whitespace. -/
theorem pyIsSpace_eq_false_of_alnum {c : Nat} (h : pyCharIsAlnum c = true) :
    pyIsSpace c = false := by
  unfold pyCharIsAlnum at h
  unfold pyIsSpace
  rw [decide_eq_true_eq] at h
  rw [decide_eq_false_iff_not]
  omega

/-- `dropWhile` is the identity when no element satisfies the predicate. -/
theorem dropWhile_all_false {α : Type} (p : α → Bool) (l : List α)
    (h : ∀ c ∈ l, p c = false) : l.dropWhile p = l := by
  cases l with
  | nil => rfl
  | cons a t => simp [List.dropWhile_cons, h a (List.mem_cons_self a t)]

/-- Stripping a string with no whitespace characters leaves it unchanged. -/
theorem pyStrip_eq_self {s : List Nat} (h : ∀ c ∈ s, pyIsSpace c = false) :
    pyStrip s = s := by
  unfold pyStrip
  rw [dropWhile_all_false _ _ h,
    dropWhile_all_false _ _ (fun c hc => h c (List.mem_reverse.mp hc)),
    List.reverse_reverse]

/-- Uppercasing distributes over cons. -/
theorem pyUpper_cons (a : Nat) (t : List Nat) :
    pyUpper (a :: t) = pyUpperChar a ++ pyUpper t := rfl

/-- Uppercasing a string of uppercase-fixed codepoints leaves it unchanged. -/
theorem pyUpper_eq_self {s : List Nat} (h : ∀ c ∈ s, pyUpperChar c = [c]) :
    pyUpper s = s := by
  induction s with
  | nil => rfl
  | cons a t ih =>
    rw [pyUpper_cons, h a (List.mem_cons_self a t),
      ih (fun c hc => h c (List.mem_cons_of_mem a hc))]
    rfl

/-- Every codepoint of an uppercased string is an uppercase image of a
codepoint of the original. -/
theorem mem_pyUpper {c : Nat} {s : List Nat} (h : c ∈ pyUpper s) :
    ∃ d ∈ s, c ∈ pyUpperChar d := by
  unfold pyUpper at h
  rw [List.mem_flatten] at h
  obtain ⟨l, hl, hcl⟩ := h
  rw [List.mem_map] at hl
  obtain ⟨d, hd, rfl⟩ := hl
  exact ⟨d, hd, hcl⟩

/-- Every codepoint of a normalized plate code is alphanumeric and fixed by
uppercasing. -/
theorem normalizeDetected_char {c : Nat} {s : List Nat} (h : c ∈ normalizeDetected s) :
    pyCharIsAlnum c = true ∧ pyUpperChar c = [c] := by
  unfold normalizeDetected keepAlnum at h
  have h2 := List.mem_filter.mp h
  refine ⟨h2.2, ?_⟩
  obtain ⟨d, _, hmem⟩ := mem_pyUpper h2.1
  exact mem_pyUpperChar_canonical hmem

/-- `find?` returns the first element satisfying the predicate: everything
listed before it fails the predicate. -/
theorem find?_some_first {α : Type} {p : α → Bool} {l : List α} {a : α}
    (h : l.find? p = some a) :
    p a = true ∧ ∃ pre post, l = pre ++ a :: post ∧ ∀ u ∈ pre, p u = false := by
  induction l with
  | nil => simp [List.find?] at h
  | cons b t ih =>
    cases hpb : p b with
    | true =>
      rw [List.find?_cons_of_pos _ hpb] at h
      injection h with h
      subst h
      exact ⟨hpb, [], t, rfl, by simp⟩
    | false =>
      rw [List.find?_cons_of_neg _ (by simp [hpb])] at h
      obtain ⟨hpa, pre, post, rfl, hpre⟩ := ih h
      refine ⟨hpa, b :: pre, post, rfl, ?_⟩
      intro u hu
      rcases List.mem_cons.mp hu with rfl | hu
      · exact hpb
      · exact hpre u hu

/-- The registration loop returns an entry exactly when that entry is the
first one matching the detected code with approved status. -/
theorem findApprovedEntry_some_iff {code : List Nat} {regs : List Vehicle} {v : Vehicle} :
    findApprovedEntry code regs = some v ↔
      ∃ pre post, regs = pre ++ v :: post ∧ entryMatches code v = true ∧
        ∀ u ∈ pre, entryMatches code u = false := by
  induction regs with
  | nil => simp [findApprovedEntry]
  | cons b t ih =>
    rw [findApprovedEntry]
    by_cases hb : entryMatches code b = true
    · rw [if_pos hb]
      constructor
      · intro h
        injection h with h
        subst h
        exact ⟨[], t, rfl, hb, by simp⟩
      · rintro ⟨pre, post, heq, hv, hpre⟩
        cases pre with
        | nil =>
          simp only [List.nil_append, List.cons.injEq] at heq
          rw [heq.1]
        | cons q qs =>
          simp only [List.cons_append, List.cons.injEq] at heq
          obtain ⟨rfl, -⟩ := heq
          exact absurd hb (by simp [hpre b (List.mem_cons_self b qs)])
    · rw [if_neg hb]
      rw [ih]
      constructor
      · rintro ⟨pre, post, rfl, hv, hpre⟩
        refine ⟨b :: pre, post, rfl, hv, ?_⟩
        intro u hu
        rcases List.mem_cons.mp hu with rfl | hu
        · exact Bool.eq_false_iff.mpr hb
        · exact hpre u hu
      · rintro ⟨pre, post, heq, hv, hpre⟩
        cases pre with
        | nil =>
          simp only [List.nil_append, List.cons.injEq] at heq
          obtain ⟨rfl, rfl⟩ := heq
          exact absurd hv hb
        | cons q qs =>
          simp only [List.cons_append, List.cons.injEq] at heq
          obtain ⟨rfl, rfl⟩ := heq
          exact ⟨qs, post, rfl, hv, fun u hu => hpre u (List.mem_cons_of_mem b hu)⟩

/-- The loop finds nothing when no entry matches. -/
theorem findApprovedEntry_eq_none {code : List Nat} {regs : List Vehicle}
    (h : ∀ u ∈ regs, entryMatches code u = false) :
    findApprovedEntry code regs = none := by
  induction regs with
  | nil => rfl
  | cons b t ih =>
    rw [findApprovedEntry, if_neg (by simp [h b (List.mem_cons_self b t)])]
    exact ih (fun u hu => h u (List.mem_cons_of_mem b hu))

/-- Stable descending insertion permutes the extended list. -/
theorem insertByAreaDesc_perm (c : Contour) (l : List Contour) :
    List.Perm (insertByAreaDesc c l) (c :: l) := by
  induction l with
  | nil => exact List.Perm.refl _
  | cons d ds ih =>
    rw [insertByAreaDesc]
    by_cases h : d.contourArea ≤ c.contourArea
    · rw [if_pos h]
    · rw [if_neg h]
      exact (ih.cons d).trans (List.Perm.swap c d ds)

/-- The descending-area sort permutes its input. -/
theorem sortByAreaDesc_perm (l : List Contour) : List.Perm (sortByAreaDesc l) l := by
  induction l with
  | nil => exact List.Perm.refl _
  | cons c cs ih =>
    rw [sortByAreaDesc]
    exact (insertByAreaDesc_perm c _).trans (ih.cons c)

/-- Stable descending insertion preserves descending order. -/
theorem insertByAreaDesc_pairwise {c : Contour} {l : List Contour}
    (h : l.Pairwise (fun a b => b.contourArea ≤ a.contourArea)) :
    (insertByAreaDesc c l).Pairwise (fun a b => b.contourArea ≤ a.contourArea) := by
  induction l with
  | nil => simp [insertByAreaDesc]
  | cons d ds ih =>
    obtain ⟨hd, hds⟩ := List.pairwise_cons.mp h
    rw [insertByAreaDesc]
    by_cases hcd : d.contourArea ≤ c.contourArea
    · rw [if_pos hcd]
      refine List.pairwise_cons.mpr ⟨?_, h⟩
      intro b hb
      rcases List.mem_cons.mp hb with rfl | hb
      · exact hcd
      · exact le_trans (hd b hb) hcd
    · rw [if_neg hcd]
      refine List.pairwise_cons.mpr ⟨?_, ih hds⟩
      intro b hb
      have hb' := (insertByAreaDesc_perm c ds).mem_iff.mp hb
      rcases List.mem_cons.mp hb' with rfl | hb'
      · exact le_of_lt (lt_of_not_le hcd)
      · exact hd b hb'

/-- The descending-area sort is sorted by descending area. -/
theorem sortByAreaDesc_pairwise (l : List Contour) :
    (sortByAreaDesc l).Pairwise (fun a b => b.contourArea ≤ a.contourArea) := by
  induction l with
  | nil => simp [sortByAreaDesc]
  | cons c cs ih =>
    rw [sortByAreaDesc]
    exact insertByAreaDesc_pairwise ih

/-- A list begins with itself before any suffix. -/
theorem beginsWith_append (p t : List Nat) : beginsWith p (p ++ t) = true := by
  induction p with
  | nil => rfl
  | cons a as ih => simp [beginsWith, ih]

/-- A list contains any of its own leading segments. -/
theorem containsSeq_self_append (p t : List Nat) : containsSeq p (p ++ t) = true := by
  cases p with
  | nil =>
    cases t with
    | nil => rfl
    | cons b bs => simp [containsSeq, beginsWith]
  | cons a as =>
    have h := beginsWith_append (a :: as) t
    simp only [List.cons_append] at h ⊢
    simp [containsSeq, h]

/-- Unfolding equation of detection on a present frame. -/
theorem detect_some (f : Frame) :
    detect_plate_from_frame (some f) =
      match findLocation f.contours with
      | none => .noPlate (pyStr "No license plate detected")
      | some location =>
        if f.fillPixels location = [] then
          .noPlate (pyStr "Error processing frame: " ++ zeroSizeReductionMessage)
        else
          match f.readtext location with
          | [] => .noPlate (pyStr "No text detected on plate")
          | (text, confidence) :: _ => .found (normalizeDetected text) confidence := rfl

/-- Unfolding equation of the lookup on a completed HTTP response. -/
theorem check_plate_http (code : List Nat) (status : Nat) (regs : List Vehicle) :
    check_plate_with_server code (.http status regs) =
      if status = 200 then
        match findApprovedEntry code regs with
        | some v => .approvedVehicle v
        | none => .denied (pyStr "Vehicle not found or not approved")
      else .denied (pyStr "Server error: " ++ natCodes status) := rfl

/-- A frame whose detection found a plate but whose cooldown window is still
open is answered with the duplicate outcome and no outward calls. -/
theorem process_frame_found_dup (st : DetectorState) (now : ℚ) (frame : Option Frame)
    (resp : ServerResponse) (rt lg : PostOutcome) {p : List Nat} {c : ℚ}
    (hdet : detect_plate_from_frame frame = .found p c)
    (hlt : now - st.last_detection_time < st.detection_cooldown) :
    process_frame st now frame resp rt lg =
      ⟨st, some p, .denied (pyStr "Duplicate detection"), [], [.duplicateSkipped]⟩ := by
  unfold process_frame
  simp only [hdet]
  rw [if_pos hlt]

/-- A frame whose detection found a plate and whose cooldown window has
elapsed runs the registry lookup and the two notification calls. -/
theorem process_frame_found_pass (st : DetectorState) (now : ℚ) (frame : Option Frame)
    (resp : ServerResponse) (rt lg : PostOutcome) {p : List Nat} {c : ℚ}
    (hdet : detect_plate_from_frame frame = .found p c)
    (hge : ¬ now - st.last_detection_time < st.detection_cooldown) :
    process_frame st now frame resp rt lg =
      match check_plate_with_server p resp with
      | .approvedVehicle v =>
        ⟨⟨now, st.detection_cooldown⟩, some p, .approvedVehicle v,
          [.registryLookup p,
           .realtimeUpdate p (pyStr "approved")
             (some ⟨v.fullName, v.make, v.model, v⟩) c,
           .logAccess p (pyStr "approved")
             (pyStr "Approved vehicle - " ++ v.fullName ++ pyStr " (" ++
              v.make ++ pyStr " " ++ v.model ++ pyStr ")")],
          send_realtime_update p (pyStr "approved") rt ++
            (log_access_attempt lg).2⟩
      | .denied e =>
        ⟨⟨now, st.detection_cooldown⟩, some p, .denied e,
          [.registryLookup p,
           .realtimeUpdate p (pyStr "denied") none c,
           .logAccess p (pyStr "denied")
             (pyStr "Vehicle not registered or not approved")],
          send_realtime_update p (pyStr "denied") rt ++
            (log_access_attempt lg).2⟩ := by
  unfold process_frame
  simp only [hdet]
  rw [if_neg hge]

/-! ## The claims -/

/-- C3: normalization is idempotent, and case- and punctuation-insensitive
on the specification's examples: `normalize("AB-12 cd") = normalize("ab12cd")
= "AB12CD"`. -/
theorem normalize_idempotent_and_insensitive :
    (∀ s : List Nat, normalizeDetected (normalizeDetected s) = normalizeDetected s) ∧
    normalizeDetected (pyStr "AB-12 cd") = pyStr "AB12CD" ∧
    normalizeDetected (pyStr "ab12cd") = pyStr "AB12CD" ∧
    normalizeDetected (pyStr "AB-12 cd") = normalizeDetected (pyStr "ab12cd") := by
  refine ⟨?_, by decide, by decide, by decide⟩
  intro s
  have hchar : ∀ c ∈ normalizeDetected s, pyCharIsAlnum c = true ∧ pyUpperChar c = [c] :=
    fun c hc => normalizeDetected_char hc
  have h1 : pyStrip (normalizeDetected s) = normalizeDetected s :=
    pyStrip_eq_self (fun c hc => pyIsSpace_eq_false_of_alnum (hchar c hc).1)
  have h2 : pyUpper (normalizeDetected s) = normalizeDetected s :=
    pyUpper_eq_self (fun c hc => (hchar c hc).2)
  have h3 : keepAlnum (normalizeDetected s) = normalizeDetected s := by
    unfold keepAlnum
    exact List.filter_eq_self.mpr (fun c hc => (hchar c hc).1)
  calc normalizeDetected (normalizeDetected s)
      = keepAlnum (pyUpper (pyStrip (normalizeDetected s))) := rfl
    _ = normalizeDetected s := by rw [h1, h2, h3]

/-- C7 counterexample: the code keeps non-ASCII alphanumerics.  On input
"é" the normalization yields "É" (codepoint 0xC9), which is not an ASCII
alphanumeric character, because Python's `str.isalnum` accepts it. -/
theorem normalize_ascii_counterexample :
    normalizeDetected (pyStr "é") = [0xC9] ∧
    (normalizeDetected (pyStr "é")).all isAsciiUpperAlnum = false ∧
    pyCharIsAlnum 0xC9 = true := by decide

/-- C7 (amended): normalization uppercases and then retains exactly the
characters Python classifies as alphanumeric; every retained codepoint is
alphanumeric and fixed by uppercasing, and whitespace is always discarded —
but non-ASCII alphanumerics are retained, not discarded. -/
theorem normalize_char_classes (s : List Nat) :
    (∀ c ∈ normalizeDetected s, pyCharIsAlnum c = true ∧ pyUpperChar c = [c]) ∧
    (∀ c, pyIsSpace c = true → pyCharIsAlnum c = false) := by
  constructor
  · exact fun c hc => normalizeDetected_char hc
  · intro c hsp
    cases halnum : pyCharIsAlnum c with
    | false => rfl
    | true =>
      rw [pyIsSpace_eq_false_of_alnum halnum] at hsp
      cases hsp

/-- Witness for C7's amended theorem at the concrete input "é". -/
theorem normalize_char_classes_witness :
    pyCharIsAlnum 0xC9 = true ∧ pyUpperChar 0xC9 = [0xC9] :=
  (normalize_char_classes (pyStr "é")).1 0xC9 (by decide)

/-- C1 counterexample: the no-match reason the code returns is
"Vehicle not found or not approved", not the
"not registered or not approved" the claim states. -/
theorem check_plate_reason_counterexample :
    check_plate_with_server (pyStr "XYZ999") (.http 200 demoRegistrations) =
      .denied (pyStr "Vehicle not found or not approved") ∧
    pyStr "Vehicle not found or not approved" ≠ pyStr "not registered or not approved" ∧
    containsSeq (pyStr "not registered or not approved")
      (pyStr "Vehicle not found or not approved") = false := by decide

/-- C1 (amended): on a 200 registry snapshot, the lookup returns Approved
with a vehicle entry echoed unchanged exactly when that entry is the first
one (in list order) whose normalized plate equals the code with status
exactly "approved"; when no entry matches, it returns Denied with reason
"Vehicle not found or not approved"; an entry with status "pending" never
matches. -/
theorem check_plate_decision (regs : List Vehicle) (code : List Nat) :
    (∀ v : Vehicle,
      check_plate_with_server code (.http 200 regs) = .approvedVehicle v ↔
        ∃ pre post, regs = pre ++ v :: post ∧ entryMatches code v = true ∧
          ∀ u ∈ pre, entryMatches code u = false) ∧
    ((∀ u ∈ regs, entryMatches code u = false) →
      check_plate_with_server code (.http 200 regs) =
        .denied (pyStr "Vehicle not found or not approved")) ∧
    (∀ v : Vehicle, v.status = pyStr "pending" → entryMatches code v = false) := by
  refine ⟨?_, ?_, ?_⟩
  · intro v
    rw [check_plate_http, if_pos rfl]
    cases hfind : findApprovedEntry code regs with
    | none =>
      simp only []
      constructor
      · intro h
        cases h
      · rintro ⟨pre, post, rfl, hv, hpre⟩
        have h2 := findApprovedEntry_some_iff.mpr ⟨pre, post, rfl, hv, hpre⟩
        rw [hfind] at h2
        cases h2
    | some w =>
      simp only []
      constructor
      · intro h
        injection h with h
        subst h
        exact findApprovedEntry_some_iff.mp hfind
      · intro hex
        have h2 := findApprovedEntry_some_iff.mpr hex
        rw [hfind] at h2
        injection h2 with h2
        rw [h2]
  · intro hnone
    rw [check_plate_http, if_pos rfl, findApprovedEntry_eq_none hnone]
  · intro v hstatus
    unfold entryMatches
    rw [hstatus]
    have h : (pyStr "pending" == pyStr "approved") = false := by decide
    rw [h, Bool.and_false]

/-- Witness for C1's amended theorem: the approved entry wins past a pending
entry with the same plate, an absent code is denied with the code's reason
string, and a pending entry never matches. -/
theorem check_plate_decision_witness :
    check_plate_with_server (pyStr "ABC123") (.http 200 demoRegistrations) =
      .approvedVehicle jane ∧
    check_plate_with_server (pyStr "XYZ999") (.http 200 demoRegistrations) =
      .denied (pyStr "Vehicle not found or not approved") ∧
    entryMatches (pyStr "ABC123") pendingTwin = false := by
  refine ⟨?_, ?_, ?_⟩
  · exact ((check_plate_decision demoRegistrations (pyStr "ABC123")).1 jane).mpr
      ⟨[pendingTwin], [], rfl, by decide, by decide⟩
  · exact (check_plate_decision demoRegistrations (pyStr "XYZ999")).2.1 (by decide)
  · exact (check_plate_decision demoRegistrations (pyStr "ABC123")).2.2 pendingTwin (by decide)

/-- C5 counterexample: the failure reasons are capitalized
("Connection error: ...", "Server error: <code>"), so the reason of a
transport failure does not contain the lowercase "connection error" and the
non-200 reason is not the lowercase "server error: <code>". -/
theorem check_plate_failure_case_counterexample :
    check_plate_with_server (pyStr "ABC123") (.connectionError (pyStr "refused")) =
      .denied (pyStr "Connection error: refused") ∧
    containsSeq (pyStr "connection error") (pyStr "Connection error: refused") = false ∧
    check_plate_with_server (pyStr "ABC123") (.http 500 []) =
      .denied (pyStr "Server error: 500") ∧
    pyStr "Server error: 500" ≠ pyStr "server error: 500" := by decide

/-- C5 (amended): a transport failure yields Denied with reason
"Connection error: <detail>" (so the reason contains "Connection error"), a
non-200 response yields Denied with reason "Server error: <code>", and the
lookup always completes with either Approved or Denied. -/
theorem check_plate_failure_reasons (code detail : List Nat) (status : Nat)
    (regs : List Vehicle) (h : status ≠ 200) :
    check_plate_with_server code (.connectionError detail) =
      .denied (pyStr "Connection error: " ++ detail) ∧
    containsSeq (pyStr "Connection error")
      (pyStr "Connection error: " ++ detail) = true ∧
    check_plate_with_server code (.http status regs) =
      .denied (pyStr "Server error: " ++ natCodes status) ∧
    ∀ resp : ServerResponse,
      (∃ v, check_plate_with_server code resp = .approvedVehicle v) ∨
      (∃ e, check_plate_with_server code resp = .denied e) := by
  refine ⟨rfl, ?_, ?_, ?_⟩
  · have hsplit : pyStr "Connection error: " ++ detail =
        pyStr "Connection error" ++ (pyStr ": " ++ detail) := by
      rw [← List.append_assoc]
      congr 1
    rw [hsplit]
    exact containsSeq_self_append _ _
  · rw [check_plate_http, if_neg h]
  · intro resp
    cases resp with
    | http s2 regs2 =>
      rw [check_plate_http]
      by_cases h2 : s2 = 200
      · rw [if_pos h2]
        cases hfind : findApprovedEntry code regs2 with
        | none => exact Or.inr ⟨_, rfl⟩
        | some w => exact Or.inl ⟨w, rfl⟩
      · rw [if_neg h2]
        exact Or.inr ⟨_, rfl⟩
    | connectionError d => exact Or.inr ⟨_, rfl⟩

/-- Witness for C5's amended theorem at a concrete refused connection and a
concrete 500 response. -/
theorem check_plate_failure_reasons_witness :
    check_plate_with_server (pyStr "ABC123") (.connectionError (pyStr "refused")) =
      .denied (pyStr "Connection error: refused") ∧
    containsSeq (pyStr "Connection error") (pyStr "Connection error: refused") = true ∧
    check_plate_with_server (pyStr "ABC123") (.http 500 []) =
      .denied (pyStr "Server error: 500") := by
  have h := check_plate_failure_reasons (pyStr "ABC123") (pyStr "refused") 500 [] (by decide)
  refine ⟨h.1.trans (by decide), ?_, h.2.2.1.trans (by decide)⟩
  have heq : pyStr "Connection error: " ++ pyStr "refused" =
      pyStr "Connection error: refused" := by decide
  rw [← heq]
  exact h.2.1

/-- C4: the localizer examines at most the ten largest-area contours in
descending area order (the candidate list is a ≤10-element descending-area
selection from a permutation of all contours), accepts the first candidate
whose 2%-of-perimeter approximation has exactly 4 vertices, and yields the
NotFound outcome when no examined candidate qualifies. -/
theorem localizer_top10_first_quad (f : Frame) :
    List.Perm (sortByAreaDesc f.contours) f.contours ∧
    (sortByAreaDesc f.contours).Pairwise
      (fun a b => b.contourArea ≤ a.contourArea) ∧
    candidateContours f.contours = (sortByAreaDesc f.contours).take 10 ∧
    (candidateContours f.contours).length ≤ 10 ∧
    (∀ loc, findLocation f.contours = some loc →
      isQuad loc = true ∧
      ∃ pre post, candidateContours f.contours = pre ++ loc :: post ∧
        ∀ u ∈ pre, isQuad u = false) ∧
    ((∀ u ∈ candidateContours f.contours, isQuad u = false) →
      findLocation f.contours = none ∧
      detect_plate_from_frame (some f) =
        .noPlate (pyStr "No license plate detected")) := by
  refine ⟨sortByAreaDesc_perm _, sortByAreaDesc_pairwise _, rfl, ?_, ?_, ?_⟩
  · unfold candidateContours
    simp [List.length_take]
  · intro loc h
    unfold findLocation at h
    exact find?_some_first h
  · intro hall
    have hnone : findLocation f.contours = none := by
      unfold findLocation
      rw [List.find?_eq_none]
      intro x hx
      simp [hall x hx]
    refine ⟨hnone, ?_⟩
    rw [detect_some, hnone]

/-- Witness for C4 on a concrete frame whose two contours approximate to 5
and 6 vertices: no candidate qualifies, so detection reports no plate. -/
theorem localizer_top10_first_quad_witness :
    findLocation noQuadFrame.contours = none ∧
    detect_plate_from_frame (some noQuadFrame) =
      .noPlate (pyStr "No license plate detected") ∧
    (candidateContours noQuadFrame.contours).length ≤ 10 := by
  have h := localizer_top10_first_quad noQuadFrame
  exact ⟨(h.2.2.2.2.2 (by decide)).1, (h.2.2.2.2.2 (by decide)).2, h.2.2.2.1⟩

/-- C8: an accepted quadrilateral whose filled mask has no foreground pixel
makes the detection step return the no-detection outcome (no plate text)
instead of letting the numpy error escape. -/
theorem detect_degenerate_mask (f : Frame) (loc : Contour)
    (hloc : findLocation f.contours = some loc)
    (hmask : f.fillPixels loc = []) :
    detect_plate_from_frame (some f) =
      .noPlate (pyStr "Error processing frame: " ++ zeroSizeReductionMessage) ∧
    ∀ p c, detect_plate_from_frame (some f) ≠ .found p c := by
  have h : detect_plate_from_frame (some f) =
      .noPlate (pyStr "Error processing frame: " ++ zeroSizeReductionMessage) := by
    rw [detect_some]
    simp only [hloc]
    rw [if_pos hmask]
  refine ⟨h, ?_⟩
  intro p c hc
  rw [h] at hc
  cases hc

/-- Witness for C8 on a concrete frame whose accepted quadrilateral fills no
mask pixels. -/
theorem detect_degenerate_mask_witness :
    detect_plate_from_frame (some degenerateFrame) =
      .noPlate (pyStr "Error processing frame: " ++ zeroSizeReductionMessage) :=
  (detect_degenerate_mask degenerateFrame quadContour rfl rfl).1

/-- C10: a frame with no detected plate text produces no registry lookup,
no notification, no access-log call, leaves the state unchanged, and returns
the no-plate outcome carrying the reason message. -/
theorem process_frame_no_detection (st : DetectorState) (now : ℚ)
    (frame : Option Frame) (resp : ServerResponse) (rt lg : PostOutcome)
    (msg : List Nat)
    (hdet : detect_plate_from_frame frame = .noPlate msg) :
    process_frame st now frame resp rt lg = ⟨st, none, .denied msg, [], []⟩ := by
  unfold process_frame
  simp only [hdet]

/-- Witness for C10 at a missing frame. -/
theorem process_frame_no_detection_witness :
    process_frame initialState 1 none (.http 200 demoRegistrations)
        (.http 200) (.http 200) =
      ⟨initialState, none, .denied (pyStr "No frame captured"), [], []⟩ :=
  process_frame_no_detection initialState 1 none (.http 200 demoRegistrations)
    (.http 200) (.http 200) (pyStr "No frame captured") rfl

/-- C9: a suppressed detection leaves `last_detection_time` unchanged (and
makes no outward call), while a detection that passes the gate sets
`last_detection_time` to the current time whatever the registry lookup then
returns — denied and connection-error lookups consume the cooldown too. -/
theorem process_frame_cooldown_consumption (st : DetectorState) (now : ℚ)
    (frame : Option Frame) (resp : ServerResponse) (rt lg : PostOutcome)
    (p : List Nat) (c : ℚ)
    (hdet : detect_plate_from_frame frame = .found p c) :
    (now - st.last_detection_time < st.detection_cooldown →
      (process_frame st now frame resp rt lg).state = st ∧
      (process_frame st now frame resp rt lg).effects = []) ∧
    (¬ now - st.last_detection_time < st.detection_cooldown →
      (process_frame st now frame resp rt lg).state =
        ⟨now, st.detection_cooldown⟩) := by
  constructor
  · intro hlt
    rw [process_frame_found_dup st now frame resp rt lg hdet hlt]
    exact ⟨rfl, rfl⟩
  · intro hge
    rw [process_frame_found_pass st now frame resp rt lg hdet hge]
    cases hc : check_plate_with_server p resp with
    | approvedVehicle v => rfl
    | denied e => rfl

/-- Witness for C9: at 3 seconds after start the state is untouched; at 7
seconds it is advanced to 7 even though the lookup hits a connection
error. -/
theorem process_frame_cooldown_consumption_witness :
    (process_frame initialState 3 (some demoFrame) (.http 200 demoRegistrations)
        (.http 200) (.http 200)).state = initialState ∧
    (process_frame initialState 7 (some demoFrame)
        (.connectionError (pyStr "refused")) (.http 200) (.http 200)).state =
      ⟨7, 5⟩ := by
  have h1 := process_frame_cooldown_consumption initialState 3 (some demoFrame)
    (.http 200 demoRegistrations) (.http 200) (.http 200)
    (pyStr "ABC12D") (81 / 100) rfl
  have h2 := process_frame_cooldown_consumption initialState 7 (some demoFrame)
    (.connectionError (pyStr "refused")) (.http 200) (.http 200)
    (pyStr "ABC12D") (81 / 100) rfl
  constructor
  · exact (h1.1 (by show (3:ℚ) - 0 < 5; rw [sub_zero]; decide)).1
  · exact h2.2 (by show ¬ (7:ℚ) - 0 < 5; rw [sub_zero]; decide)

/-- C2: after a detection accepted at `t0`, a second detection at `t1` with
`t1 - t0 < 5` is answered with the duplicate outcome and makes no outward
call at all, while the registry lookup happens exactly when
`t1 - t0 ≥ 5` — the gate lets a detection through iff five seconds have
elapsed since the last accepted one. -/
theorem process_frame_cooldown_window (st : DetectorState) (t0 t1 : ℚ)
    (f0 f1 : Option Frame) (resp0 resp1 : ServerResponse)
    (rt0 lg0 rt1 lg1 : PostOutcome) (p0 p1 : List Nat) (c0 c1 : ℚ)
    (hdet0 : detect_plate_from_frame f0 = .found p0 c0)
    (hdet1 : detect_plate_from_frame f1 = .found p1 c1)
    (hcd : st.detection_cooldown = 5)
    (hgate : ¬ t0 - st.last_detection_time < 5) :
    (process_frame st t0 f0 resp0 rt0 lg0).state.last_detection_time = t0 ∧
    (t1 - t0 < 5 →
      process_frame (process_frame st t0 f0 resp0 rt0 lg0).state t1 f1 resp1 rt1 lg1 =
        ⟨(process_frame st t0 f0 resp0 rt0 lg0).state, some p1,
          .denied (pyStr "Duplicate detection"), [], [.duplicateSkipped]⟩) ∧
    (Effect.registryLookup p1 ∈
        (process_frame (process_frame st t0 f0 resp0 rt0 lg0).state t1 f1
          resp1 rt1 lg1).effects ↔
      ¬ t1 - t0 < 5) := by
  have hstate : (process_frame st t0 f0 resp0 rt0 lg0).state =
      ⟨t0, st.detection_cooldown⟩ := by
    rw [process_frame_found_pass st t0 f0 resp0 rt0 lg0 hdet0
      (by rw [hcd]; exact hgate)]
    cases hc : check_plate_with_server p0 resp0 with
    | approvedVehicle v => rfl
    | denied e => rfl
  refine ⟨by rw [hstate], ?_, ?_, ?_⟩
  · intro hlt
    rw [process_frame_found_dup _ t1 f1 resp1 rt1 lg1 hdet1
      (by rw [hstate, hcd]; exact hlt)]
  · intro hmem hlt
    rw [process_frame_found_dup _ t1 f1 resp1 rt1 lg1 hdet1
      (by rw [hstate, hcd]; exact hlt)] at hmem
    cases hmem
  · intro hge
    rw [process_frame_found_pass _ t1 f1 resp1 rt1 lg1 hdet1
      (by rw [hstate, hcd]; exact hge)]
    cases hc : check_plate_with_server p1 resp1 with
    | approvedVehicle v => exact List.mem_cons_self _ _
    | denied e => exact List.mem_cons_self _ _

/-- Witness for C2: with the gate satisfied at time 0, a second detection at
time 3 is suppressed with no outward calls and a second detection at time 7
reaches the registry lookup. -/
theorem process_frame_cooldown_window_witness :
    process_frame (process_frame ⟨-5, 5⟩ 0 (some demoFrame)
        (.http 200 demoRegistrations) (.http 200) (.http 200)).state 3
        (some demoFrame) (.http 200 demoRegistrations) (.http 200) (.http 200) =
      ⟨(process_frame ⟨-5, 5⟩ 0 (some demoFrame) (.http 200 demoRegistrations)
          (.http 200) (.http 200)).state, some (pyStr "ABC12D"),
        .denied (pyStr "Duplicate detection"), [], [.duplicateSkipped]⟩ ∧
    Effect.registryLookup (pyStr "ABC12D") ∈
      (process_frame (process_frame ⟨-5, 5⟩ 0 (some demoFrame)
          (.http 200 demoRegistrations) (.http 200) (.http 200)).state 7
        (some demoFrame) (.http 200 demoRegistrations) (.http 200)
        (.http 200)).effects := by
  have hgate : ¬ (0:ℚ) - (-5) < 5 := by
    rw [sub_neg_eq_add, zero_add]
    decide
  have h3 := process_frame_cooldown_window ⟨-5, 5⟩ 0 3 (some demoFrame)
    (some demoFrame) (.http 200 demoRegistrations) (.http 200 demoRegistrations)
    (.http 200) (.http 200) (.http 200) (.http 200)
    (pyStr "ABC12D") (pyStr "ABC12D") (81 / 100) (81 / 100) rfl rfl rfl hgate
  have h7 := process_frame_cooldown_window ⟨-5, 5⟩ 0 7 (some demoFrame)
    (some demoFrame) (.http 200 demoRegistrations) (.http 200 demoRegistrations)
    (.http 200) (.http 200) (.http 200) (.http 200)
    (pyStr "ABC12D") (pyStr "ABC12D") (81 / 100) (81 / 100) rfl rfl rfl hgate
  constructor
  · exact h3.2.1 (by rw [sub_zero]; decide)
  · exact h7.2.2.mpr (by rw [sub_zero]; decide)

/-- C6 counterexample: a non-200 access-log response is a failed call (the
200-on-success contract makes `log_access_attempt` return `false`), yet it
leaves no local log line: the cycle's whole local log is the one real-time
line, so the failure of the access-log call is not logged locally. -/
theorem access_log_silent_failure_counterexample :
    (log_access_attempt (.http 500)).1 = false ∧
    (log_access_attempt (.http 500)).2 = [] ∧
    (process_frame initialState 9 (some demoFrame) (.http 200 demoRegistrations)
        (.http 200) (.http 500)).localLog =
      [.realtimeSent (pyStr "ABC12D") (pyStr "denied")] := by
  refine ⟨rfl, rfl, ?_⟩
  rw [@process_frame_found_pass initialState 9 (some demoFrame)
    (.http 200 demoRegistrations) (.http 200) (.http 500)
    (pyStr "ABC12D") (81 / 100) rfl
    (by show ¬ (9:ℚ) - 0 < 5; rw [sub_zero]; decide)]
  decide

/-- C6 (amended): a detection that passes the gate emits exactly one
real-time notification call and exactly one access-log call regardless of
the decision, the decision is exactly the registry lookup's answer, and the
state / returned pair / outward calls do not depend on the outcomes of the
two POSTs.  A raised exception in either call and a non-200 real-time
response are logged locally; a non-200 access-log response, however, is
reported only through `log_access_attempt`'s ignored boolean return and
leaves no local log line. -/
theorem process_frame_notifies_once (st : DetectorState) (now : ℚ)
    (frame : Option Frame) (resp : ServerResponse)
    (rt lg rt2 lg2 : PostOutcome) (p : List Nat) (c : ℚ)
    (hdet : detect_plate_from_frame frame = .found p c)
    (hge : ¬ now - st.last_detection_time < st.detection_cooldown) :
    ((process_frame st now frame resp rt lg).effects.filter
        Effect.isRealtimeUpdate).length = 1 ∧
    ((process_frame st now frame resp rt lg).effects.filter
        Effect.isLogAccess).length = 1 ∧
    (process_frame st now frame resp rt lg).info =
      check_plate_with_server p resp ∧
    (process_frame st now frame resp rt2 lg2).state =
      (process_frame st now frame resp rt lg).state ∧
    (process_frame st now frame resp rt2 lg2).plate_text =
      (process_frame st now frame resp rt lg).plate_text ∧
    (process_frame st now frame resp rt2 lg2).info =
      (process_frame st now frame resp rt lg).info ∧
    (process_frame st now frame resp rt2 lg2).effects =
      (process_frame st now frame resp rt lg).effects ∧
    (∀ d, rt = .connectionError d →
      LocalLog.realtimeSendError d ∈ (process_frame st now frame resp rt lg).localLog) ∧
    (∀ code, rt = .http code → code ≠ 200 →
      LocalLog.realtimeSendFailed code ∈ (process_frame st now frame resp rt lg).localLog) ∧
    (∀ d, lg = .connectionError d →
      LocalLog.accessLogFailed d ∈ (process_frame st now frame resp rt lg).localLog) ∧
    (∀ code, lg = .http code → (log_access_attempt lg).1 = (code == 200) ∧
      (log_access_attempt lg).2 = []) ∧
    (∀ code d, lg = .http code →
      LocalLog.accessLogFailed d ∉ (process_frame st now frame resp rt lg).localLog) := by
  rw [process_frame_found_pass st now frame resp rt lg hdet hge,
    process_frame_found_pass st now frame resp rt2 lg2 hdet hge]
  cases hc : check_plate_with_server p resp with
  | approvedVehicle v =>
    refine ⟨rfl, rfl, rfl, rfl, rfl, rfl, rfl, ?_, ?_, ?_, ?_, ?_⟩
    · rintro d rfl
      simp [send_realtime_update]
    · rintro code rfl hcode
      simp [send_realtime_update, if_neg hcode]
    · rintro d rfl
      simp [log_access_attempt]
    · rintro code rfl
      exact ⟨rfl, rfl⟩
    · rintro code d rfl
      cases rt with
      | http code2 =>
        by_cases h200 : code2 = 200 <;>
          simp [send_realtime_update, log_access_attempt, h200]
      | connectionError dd =>
        simp [send_realtime_update, log_access_attempt]
  | denied e =>
    refine ⟨rfl, rfl, rfl, rfl, rfl, rfl, rfl, ?_, ?_, ?_, ?_, ?_⟩
    · rintro d rfl
      simp [send_realtime_update]
    · rintro code rfl hcode
      simp [send_realtime_update, if_neg hcode]
    · rintro d rfl
      simp [log_access_attempt]
    · rintro code rfl
      exact ⟨rfl, rfl⟩
    · rintro code d rfl
      cases rt with
      | http code2 =>
        by_cases h200 : code2 = 200 <;>
          simp [send_realtime_update, log_access_attempt, h200]
      | connectionError dd =>
        simp [send_realtime_update, log_access_attempt]

/-- Witness for C6's amended theorem with a failing real-time POST and a 500
access-log POST: one call of each kind, the real-time failure is logged
locally, and the 500 access-log failure leaves no local log line. -/
theorem process_frame_notifies_once_witness :
    ((process_frame initialState 7 (some demoFrame) (.http 200 demoRegistrations)
        (.connectionError (pyStr "refused")) (.http 500)).effects.filter
        Effect.isRealtimeUpdate).length = 1 ∧
    ((process_frame initialState 7 (some demoFrame) (.http 200 demoRegistrations)
        (.connectionError (pyStr "refused")) (.http 500)).effects.filter
        Effect.isLogAccess).length = 1 ∧
    LocalLog.realtimeSendError (pyStr "refused") ∈
      (process_frame initialState 7 (some demoFrame) (.http 200 demoRegistrations)
        (.connectionError (pyStr "refused")) (.http 500)).localLog ∧
    (log_access_attempt (.http 500)).2 = [] ∧
    LocalLog.accessLogFailed (pyStr "boom") ∉
      (process_frame initialState 7 (some demoFrame) (.http 200 demoRegistrations)
        (.connectionError (pyStr "refused")) (.http 500)).localLog := by
  have h := process_frame_notifies_once initialState 7 (some demoFrame)
    (.http 200 demoRegistrations) (.connectionError (pyStr "refused")) (.http 500)
    (.http 200) (.http 200) (pyStr "ABC12D") (81 / 100) rfl
    (by show ¬ (7:ℚ) - 0 < 5; rw [sub_zero]; decide)
  obtain ⟨h1, h2, -, -, -, -, -, h8, -, -, h11, h12⟩ := h
  exact ⟨h1, h2, h8 (pyStr "refused") rfl, (h11 500 rfl).2, h12 500 (pyStr "boom") rfl⟩

end PlateDetection
